import Mathlib

/-!
Verification development for `mindsdb/integrations/handlers_wrapper/db_handler_wrapper.py`.

The file embeds the dispatch layer of the REST wrapper around database
handlers: the per-request handler resolution (`BaseDBWrapper.get_handler`),
the seven dispatch operations of `DBHandlerWrapper`
(`connect`, `disconnect`, `check_connection`, `native_query`, `query`,
`get_tables`, `get_columns`), the Flask route table built in `__init__`,
and the query transport codec (base64 over a backend-specific binary
serialization) used by the `query` operation.

External collaborators that are not part of the embedded source file
(the response envelope classes from `integrations/libs/response.py`, the
registry function `handler_helpers.get_handler`, Python's `traceback`,
`json`, `base64` and `pickle` modules, and Flask's request object) are
modelled explicitly; each such definition says so in its doc comment.

Conventions: Python strings are lists of Unicode code points (`PyStr`),
byte strings are lists of naturals below 256, exceptions are values of
`Exn`, and a Python function that can raise returns `Except Exn`.
Each dispatch operation additionally returns a trace of `Event`s
recording handler construction and capability invocations; the events
are instrumentation only and never influence the computed response.
-/

/-- Python strings, modelled as lists of Unicode code points. -/
abbrev PyStr := List Nat

/-- Embed a Lean string literal as a `PyStr`. -/
def pyOfString (s : String) : PyStr := s.toList.map Char.toNat

/-- JSON values, the result of parsing a request body. -/
inductive JValue : Type
  | null
  | bool (b : Bool)
  | num (n : Int)
  | str (s : PyStr)
  | arr (xs : List JValue)
  | obj (kvs : List (PyStr × JValue))

/-- Python exceptions that the embedded code can raise or observe.  All of
them derive from `Exception` in Python, so a bare `except Exception` catches
every one of them. -/
inductive Exn : Type
  | badRequest
  | jsonDecodeError
  | keyError (k : PyStr)
  | typeError
  | attributeError
  | binasciiError
  | unpicklingError
  | unknownHandlerType (t : JValue)
  | handlerError (msg : PyStr)

/-- Rendering of a JSON value inside an exception message; only the string
case matters for the theorems below. -/
def jvalText : JValue → PyStr
  | JValue.str s => s
  | _ => pyOfString "<object>"

/-- Message text of an exception, as it appears inside a formatted traceback.
The registry failure message is modelled from the spec: the external
`handler_helpers.get_handler` is not part of the embedded source file, and
the spec requires its diagnostic to mention the unresolved type. -/
def exnText : Exn → PyStr
  | Exn.badRequest => pyOfString "werkzeug.exceptions.BadRequest: 400 Bad Request"
  | Exn.jsonDecodeError => pyOfString "json.decoder.JSONDecodeError: Expecting value"
  | Exn.keyError k => pyOfString "KeyError: " ++ k
  | Exn.typeError => pyOfString "TypeError: object is not subscriptable"
  | Exn.attributeError => pyOfString "AttributeError"
  | Exn.binasciiError => pyOfString "binascii.Error: Invalid base64-encoded data"
  | Exn.unpicklingError => pyOfString "UnpicklingError: could not deserialize"
  | Exn.unknownHandlerType t =>
      pyOfString "Exception: handler of type " ++ jvalText t ++ pyOfString " is not registered"
  | Exn.handlerError msg => msg

/-- Modelled from the spec: Python's `traceback.format_exc()`, the
stack-trace-equivalent diagnostic attached to every error envelope.  The
stack frames themselves are irrelevant to the claims; what matters is that
the text is non-empty and contains the exception's own message. -/
def tracebackOf (e : Exn) : PyStr :=
  pyOfString "Traceback (most recent call last): " ++ exnText e

/-- Request bodies: either bytes that parse as the given JSON value, or
bytes (remembered verbatim) that are not valid JSON. -/
inductive BodyData : Type
  | malformed (raw : String)
  | json (v : JValue)

/-- An inbound HTTP request as seen by one dispatch operation. -/
structure Request where
  body : BodyData

/-- Modelled from Python's `json.loads` applied to the raw body bytes:
returns the parsed value or raises `json.decoder.JSONDecodeError`. -/
def parseJson : BodyData → Except Exn JValue
  | BodyData.malformed _ => Except.error Exn.jsonDecodeError
  | BodyData.json v => Except.ok v

/-- Modelled from Flask's `request.json` property: same parse as
`json.loads`, but a malformed body raises `werkzeug.exceptions.BadRequest`. -/
def requestJson : BodyData → Except Exn JValue
  | BodyData.malformed _ => Except.error Exn.badRequest
  | BodyData.json v => Except.ok v

/-- First value bound to a key in a parsed JSON object. -/
def lookupKey : List (PyStr × JValue) → PyStr → Option JValue
  | [], _ => none
  | (k', v) :: rest, k => if k' = k then some v else lookupKey rest k

/-- Python's `d.get(key)` with default `None`: succeeds with `none` when the
key is absent, raises `AttributeError` when the value is not a dict. -/
def jsonGet : JValue → PyStr → Except Exn (Option JValue)
  | JValue.obj kvs, k => Except.ok (lookupKey kvs k)
  | _, _ => Except.error Exn.attributeError

/-- Python's `d[key]` subscript: raises `KeyError` when the key is absent and
`TypeError` when the value is not a dict. -/
def jsonGetItem : JValue → PyStr → Except Exn JValue
  | JValue.obj kvs, k =>
      match lookupKey kvs k with
      | some v => Except.ok v
      | none => Except.error (Exn.keyError k)
  | _, _ => Except.error Exn.typeError

/-- Field of a JSON object body, if the body is an object and the key bound. -/
def lookupField (body : JValue) (k : PyStr) : Option JValue :=
  match body with
  | JValue.obj kvs => lookupKey kvs k
  | _ => none

/-- Sextet-to-ASCII table of standard base64 (RFC 4648), as used by Python's
`base64.b64encode`. -/
def b64Char (n : Nat) : Nat :=
  if n < 26 then 65 + n
  else if n < 52 then 97 + (n - 26)
  else if n < 62 then 48 + (n - 52)
  else if n = 62 then 43
  else 47

/-- ASCII-to-sextet table of standard base64; `none` on characters outside
the alphabet (the pad character 61 = `=` is outside the alphabet). -/
def b64Val (c : Nat) : Option Nat :=
  if 65 ≤ c ∧ c ≤ 90 then some (c - 65)
  else if 97 ≤ c ∧ c ≤ 122 then some (c - 97 + 26)
  else if 48 ≤ c ∧ c ≤ 57 then some (c - 48 + 52)
  else if c = 43 then some 62
  else if c = 47 then some 63
  else none

/-- Modelled from Python's `base64.b64encode`: three input bytes become four
alphabet characters, a one- or two-byte remainder is padded with `=` (61). -/
def b64encode : List Nat → List Nat
  | [] => []
  | [a] => [b64Char (a / 4), b64Char (a % 4 * 16), 61, 61]
  | [a, b] => [b64Char (a / 4), b64Char (a % 4 * 16 + b / 16), b64Char (b % 16 * 4), 61]
  | a :: b :: c :: rest =>
      b64Char (a / 4) :: b64Char (a % 4 * 16 + b / 16) ::
        b64Char (b % 16 * 4 + c / 64) :: b64Char (c % 64) :: b64encode rest

/-- Strict block decoder of standard base64: four characters at a time, `=`
padding only at the very end, `binascii.Error` otherwise. -/
def b64strict : List Nat → Except Exn (List Nat)
  | [] => Except.ok []
  | c1 :: c2 :: c3 :: c4 :: rest =>
      match b64Val c1, b64Val c2 with
      | some v1, some v2 =>
          if c3 = 61 then
            if c4 = 61 ∧ rest = [] then Except.ok [v1 * 4 + v2 / 16]
            else Except.error Exn.binasciiError
          else
            match b64Val c3 with
            | some v3 =>
                if c4 = 61 then
                  if rest = [] then Except.ok [v1 * 4 + v2 / 16, v2 % 16 * 16 + v3 / 4]
                  else Except.error Exn.binasciiError
                else
                  match b64Val c4 with
                  | some v4 =>
                      match b64strict rest with
                      | Except.ok tail =>
                          Except.ok ((v1 * 4 + v2 / 16) :: (v2 % 16 * 16 + v3 / 4) ::
                            (v3 % 4 * 64 + v4) :: tail)
                      | Except.error e => Except.error e
                  | none => Except.error Exn.binasciiError
            | none => Except.error Exn.binasciiError
      | _, _ => Except.error Exn.binasciiError
  | _ => Except.error Exn.binasciiError

/-- Characters kept by Python's `base64.b64decode` with `validate=False`:
the alphabet together with the pad character. -/
def isB64Sym (c : Nat) : Bool := (b64Val c).isSome || c = 61

/-- Modelled from Python's `base64.b64decode` (default `validate=False`):
characters outside the alphabet and pad are discarded, then the remainder is
block-decoded; bad padding raises `binascii.Error`. -/
def b64decodePy (l : List Nat) : Except Exn (List Nat) :=
  b64strict (l.filter isB64Sym)

/-- UTF-8 encoding of a single code point. -/
def utf8EncodeChar (c : Nat) : List Nat :=
  if c < 128 then [c]
  else if c < 2048 then [192 + c / 64, 128 + c % 64]
  else if c < 65536 then [224 + c / 4096, 128 + c / 64 % 64, 128 + c % 64]
  else [240 + c / 262144, 128 + c / 4096 % 64, 128 + c / 64 % 64, 128 + c % 64]

/-- Python's `str.encode("utf-8")`: UTF-8 bytes of a string. -/
def utf8Encode : PyStr → List Nat
  | [] => []
  | c :: rest => utf8EncodeChar c ++ utf8Encode rest

/-- Boolean test that `pat` occurs at the head of `l`. -/
def leadsWith : List Nat → List Nat → Bool
  | [], _ => true
  | _ :: _, [] => false
  | a :: as, b :: bs => a == b && leadsWith as bs

/-- Boolean test that `pat` occurs contiguously somewhere inside `l`; used to
state that a diagnostic text mentions a given fragment. -/
def mentions (pat : List Nat) : List Nat → Bool
  | [] => leadsWith pat []
  | c :: rest => leadsWith pat (c :: rest) || mentions pat rest

/-- Modelled from the spec: `RESPONSE_TYPE` of
`integrations/libs/response.py` (not part of the embedded source file); the
spec lists the three response types TABLE, OK and ERROR. -/
inductive RespType : Type
  | TABLE
  | OK
  | ERROR
deriving DecidableEq

/-- Text of a response type as it appears in the serialized envelope. -/
def RespType.toText : RespType → PyStr
  | RespType.TABLE => pyOfString "TABLE"
  | RespType.OK => pyOfString "OK"
  | RespType.ERROR => pyOfString "ERROR"

/-- Modelled from the spec: `HandlerStatusResponse` of
`integrations/libs/response.py` — `{ success : bool, error_message : string|null }`. -/
structure StatusResponse where
  success : Bool
  error_message : Option PyStr

/-- Serialization of a Status Response, as produced by its `to_json`. -/
def StatusResponse.to_json (r : StatusResponse) : JValue :=
  JValue.obj
    [(pyOfString "success", JValue.bool r.success),
     (pyOfString "error_message",
       match r.error_message with
       | some m => JValue.str m
       | none => JValue.null)]

/-- Modelled from the spec: `HandlerResponse` of
`integrations/libs/response.py` — the Query Response
`{ type, error_code : int|null, error_message : string|null, result_set }`. -/
structure HandlerResponse where
  resp_type : RespType
  error_code : Option Int
  error_message : Option PyStr
  result_set : Option (List (List (PyStr × JValue)))

/-- Serialization of a Query Response, as produced by its `to_json`. -/
def HandlerResponse.to_json (r : HandlerResponse) : JValue :=
  JValue.obj
    [(pyOfString "type", JValue.str (RespType.toText r.resp_type)),
     (pyOfString "error_code",
       match r.error_code with
       | some n => JValue.num n
       | none => JValue.null),
     (pyOfString "error_message",
       match r.error_message with
       | some m => JValue.str m
       | none => JValue.null),
     (pyOfString "result_set",
       match r.result_set with
       | some rows => JValue.arr (rows.map (fun row => JValue.obj row))
       | none => JValue.null)]

/-- Error-typed Query Response exactly as every catch block of the
query-shaped operations constructs it:
`Response(resp_type=RESPONSE_TYPE.ERROR, error_code=1, error_message=msg)`. -/
def errorQueryResponse (msg : PyStr) : HandlerResponse :=
  { resp_type := RespType.ERROR
    error_code := some 1
    error_message := some msg
    result_set := none }

/-- Capability interface of a resolved handler instance.  Each capability
either returns its result or raises; the argument of `native_query` and
`get_columns` is the JSON field the wrapper passes (possibly `None`). -/
structure Handler (Q : Type) where
  connect : Except Exn Unit
  disconnect : Except Exn Unit
  check_connection : Except Exn StatusResponse
  native_query : Option JValue → Except Exn HandlerResponse
  query : Q → Except Exn HandlerResponse
  get_tables : Except Exn HandlerResponse
  get_columns : Option JValue → Except Exn HandlerResponse

/-- A handler class as returned by the registry: calling it with the expanded
`handler_kwargs` either constructs an instance or raises. -/
structure HandlerClass (Q : Type) where
  construct : List (PyStr × JValue) → Except Exn (Handler Q)

/-- The backend-specific binary serialization used by the query transport
codec.  Modelled from the spec: the source uses Python's `pickle`
(`pickle.dumps` on the caller side, `pickle.loads` in the `query`
operation), which is external to the embedded file; the spec requires only
an `encode/decode` pair over backend-defined query objects. -/
structure Backend where
  Q : Type
  dumps : Q → List Nat
  loads : List Nat → Except Exn Q

/-- State of one `DBHandlerWrapper` object.  The Python object stores only
the Flask app and routes; in particular it keeps no handler instance, so the
only datum the dispatch operations consult is the external registry
(`handler_helpers.get_handler`), modelled as a lookup that knows some set of
handler classes. -/
structure Wrapper (B : Backend) where
  registry : JValue → Option (HandlerClass B.Q)

/-- Instrumentation events recorded by the dispatch operations: the codec
steps of the `query` operation, handler construction, and each capability
invocation together with its argument. -/
inductive Event (Q : Type) : Type
  | readBody
  | parseJSON
  | extractQuery
  | b64dec
  | deserialize
  | resolve (ht : JValue) (kwargs : List (PyStr × JValue))
  | callConnect
  | callDisconnect
  | callCheck
  | callNative (q : Option JValue)
  | callQuery (q : Q)
  | callTables
  | callColumns (t : Option JValue)

/-- Events that touch the handler: its construction or any capability
invocation (as opposed to the pure codec steps). -/
def isHandlerEvent {Q : Type} : Event Q → Bool
  | Event.resolve _ _ => true
  | Event.callConnect => true
  | Event.callDisconnect => true
  | Event.callCheck => true
  | Event.callNative _ => true
  | Event.callQuery _ => true
  | Event.callTables => true
  | Event.callColumns _ => true
  | _ => false

/-- What a dispatch operation hands back to Flask: either a JSON body with a
status code, or an exception that escaped the operation to the framework. -/
inductive Outcome : Type
  | resp (body : JValue) (status : Nat)
  | raised (e : Exn)

/-- Request-body key `"handler_type"`. -/
def handlerTypeKey : PyStr := pyOfString "handler_type"

/-- Request-body key `"handler_kwargs"`. -/
def handlerKwargsKey : PyStr := pyOfString "handler_kwargs"

/-- Request-body key `"query"`. -/
def queryKey : PyStr := pyOfString "query"

/-- Request-body key `"table"`. -/
def tableKey : PyStr := pyOfString "table"

/-- Embedding of `BaseDBWrapper.get_handler`: look the `handler_type` tag up
through the external registry and call the resolved class with
`**_json["handler_kwargs"]`.  The trace records the construction when and
only when it succeeds. -/
def BaseDBWrapper.get_handler (B : Backend) (W : Wrapper B) (_json : JValue) :
    Except Exn (Handler B.Q) × List (Event B.Q) :=
  match jsonGetItem _json handlerTypeKey with
  | Except.error e => (Except.error e, [])
  | Except.ok ht =>
      match W.registry ht with
      | none => (Except.error (Exn.unknownHandlerType ht), [])
      | some cls =>
          match jsonGetItem _json handlerKwargsKey with
          | Except.error e => (Except.error e, [])
          | Except.ok (JValue.obj kvs) =>
              match cls.construct kvs with
              | Except.ok h => (Except.ok h, [Event.resolve ht kvs])
              | Except.error e => (Except.error e, [])
          | Except.ok _ => (Except.error Exn.typeError, [])

/-- Body `{"status": "OK"}` returned by `connect` and `disconnect`. -/
def okJson : JValue :=
  JValue.obj [(pyOfString "status", JValue.str (pyOfString "OK"))]

/-- Body `{"status": "FAIL", "error": msg}` returned by the catch blocks of
`connect` and `disconnect`. -/
def failJson (msg : PyStr) : JValue :=
  JValue.obj
    [(pyOfString "status", JValue.str (pyOfString "FAIL")),
     (pyOfString "error", JValue.str msg)]

/-- Embedding of `DBHandlerWrapper.connect`: the whole body, including the
read of `request.json`, sits inside `try ... except Exception`. -/
def DBHandlerWrapper.connect (B : Backend) (W : Wrapper B) (req : Request) :
    Outcome × List (Event B.Q) :=
  match requestJson req.body with
  | Except.error e => (Outcome.resp (failJson (tracebackOf e)) 500, [])
  | Except.ok _json =>
      match BaseDBWrapper.get_handler B W _json with
      | (Except.error e, ev) => (Outcome.resp (failJson (tracebackOf e)) 500, ev)
      | (Except.ok h, ev) =>
          match h.connect with
          | Except.ok _ => (Outcome.resp okJson 200, ev ++ [Event.callConnect])
          | Except.error e =>
              (Outcome.resp (failJson (tracebackOf e)) 500, ev ++ [Event.callConnect])

/-- Embedding of `DBHandlerWrapper.disconnect`: identical shape to `connect`
but invoking the `disconnect` capability. -/
def DBHandlerWrapper.disconnect (B : Backend) (W : Wrapper B) (req : Request) :
    Outcome × List (Event B.Q) :=
  match requestJson req.body with
  | Except.error e => (Outcome.resp (failJson (tracebackOf e)) 500, [])
  | Except.ok _json =>
      match BaseDBWrapper.get_handler B W _json with
      | (Except.error e, ev) => (Outcome.resp (failJson (tracebackOf e)) 500, ev)
      | (Except.ok h, ev) =>
          match h.disconnect with
          | Except.ok _ => (Outcome.resp okJson 200, ev ++ [Event.callDisconnect])
          | Except.error e =>
              (Outcome.resp (failJson (tracebackOf e)) 500, ev ++ [Event.callDisconnect])

/-- Embedding of `DBHandlerWrapper.check_connection`: every exception is
converted to `StatusResponse(success=False, error_message=msg)` with 500. -/
def DBHandlerWrapper.check_connection (B : Backend) (W : Wrapper B) (req : Request) :
    Outcome × List (Event B.Q) :=
  match requestJson req.body with
  | Except.error e =>
      (Outcome.resp (StatusResponse.to_json ⟨false, some (tracebackOf e)⟩) 500, [])
  | Except.ok _json =>
      match BaseDBWrapper.get_handler B W _json with
      | (Except.error e, ev) =>
          (Outcome.resp (StatusResponse.to_json ⟨false, some (tracebackOf e)⟩) 500, ev)
      | (Except.ok h, ev) =>
          match h.check_connection with
          | Except.ok result =>
              (Outcome.resp result.to_json 200, ev ++ [Event.callCheck])
          | Except.error e =>
              (Outcome.resp (StatusResponse.to_json ⟨false, some (tracebackOf e)⟩) 500,
                ev ++ [Event.callCheck])

/-- Embedding of `DBHandlerWrapper.native_query`.  Faithful to the source,
the read `query = request.json.get("query")` happens before the `try`
block, so a body that is not valid JSON (or whose JSON value is not a dict)
raises past the operation: the outcome is `Outcome.raised`. -/
def DBHandlerWrapper.native_query (B : Backend) (W : Wrapper B) (req : Request) :
    Outcome × List (Event B.Q) :=
  match requestJson req.body with
  | Except.error e => (Outcome.raised e, [])
  | Except.ok _json =>
      match jsonGet _json queryKey with
      | Except.error e => (Outcome.raised e, [])
      | Except.ok q =>
          match BaseDBWrapper.get_handler B W _json with
          | (Except.error e, ev) =>
              (Outcome.resp ((errorQueryResponse (tracebackOf e)).to_json) 500, ev)
          | (Except.ok h, ev) =>
              match h.native_query q with
              | Except.ok result =>
                  (Outcome.resp result.to_json 200, ev ++ [Event.callNative q])
              | Except.error e =>
                  (Outcome.resp ((errorQueryResponse (tracebackOf e)).to_json) 500,
                    ev ++ [Event.callNative q])

/-- Decode phase of `DBHandlerWrapper.query` (its first `try` block): read
the raw body, `json.loads` it, take `_json["query"]`, UTF-8-encode the
string, `base64.b64decode` the bytes, then deserialize them into the
backend-specific query object.  The trace records each step as it runs. -/
def queryDecode (B : Backend) (body : BodyData) :
    Except Exn (JValue × B.Q) × List (Event B.Q) :=
  match parseJson body with
  | Except.error e => (Except.error e, [Event.readBody, Event.parseJSON])
  | Except.ok _json =>
      match jsonGetItem _json queryKey with
      | Except.error e =>
          (Except.error e, [Event.readBody, Event.parseJSON, Event.extractQuery])
      | Except.ok (JValue.str s) =>
          match b64decodePy (utf8Encode s) with
          | Except.error e =>
              (Except.error e,
                [Event.readBody, Event.parseJSON, Event.extractQuery, Event.b64dec])
          | Except.ok raw =>
              match B.loads raw with
              | Except.error e =>
                  (Except.error e,
                    [Event.readBody, Event.parseJSON, Event.extractQuery, Event.b64dec,
                      Event.deserialize])
              | Except.ok q =>
                  (Except.ok (_json, q),
                    [Event.readBody, Event.parseJSON, Event.extractQuery, Event.b64dec,
                      Event.deserialize])
      | Except.ok _ =>
          (Except.error Exn.attributeError,
            [Event.readBody, Event.parseJSON, Event.extractQuery])

/-- Embedding of `DBHandlerWrapper.query`: the decode phase runs in its own
`try` block; only afterwards is the handler resolved from the same parsed
JSON and its `query` capability invoked with the decoded object. -/
def DBHandlerWrapper.query (B : Backend) (W : Wrapper B) (req : Request) :
    Outcome × List (Event B.Q) :=
  match queryDecode B req.body with
  | (Except.error e, ev) =>
      (Outcome.resp ((errorQueryResponse (tracebackOf e)).to_json) 500, ev)
  | (Except.ok (_json, q), ev) =>
      match BaseDBWrapper.get_handler B W _json with
      | (Except.error e, ev2) =>
          (Outcome.resp ((errorQueryResponse (tracebackOf e)).to_json) 500, ev ++ ev2)
      | (Except.ok h, ev2) =>
          match h.query q with
          | Except.ok result =>
              (Outcome.resp result.to_json 200, ev ++ ev2 ++ [Event.callQuery q])
          | Except.error e =>
              (Outcome.resp ((errorQueryResponse (tracebackOf e)).to_json) 500,
                ev ++ ev2 ++ [Event.callQuery q])

/-- Embedding of `DBHandlerWrapper.get_tables`. -/
def DBHandlerWrapper.get_tables (B : Backend) (W : Wrapper B) (req : Request) :
    Outcome × List (Event B.Q) :=
  match requestJson req.body with
  | Except.error e =>
      (Outcome.resp ((errorQueryResponse (tracebackOf e)).to_json) 500, [])
  | Except.ok _json =>
      match BaseDBWrapper.get_handler B W _json with
      | (Except.error e, ev) =>
          (Outcome.resp ((errorQueryResponse (tracebackOf e)).to_json) 500, ev)
      | (Except.ok h, ev) =>
          match h.get_tables with
          | Except.ok result =>
              (Outcome.resp result.to_json 200, ev ++ [Event.callTables])
          | Except.error e =>
              (Outcome.resp ((errorQueryResponse (tracebackOf e)).to_json) 500,
                ev ++ [Event.callTables])

/-- Embedding of `DBHandlerWrapper.get_columns`: `request.json.get("table")`
runs inside the `try` block, and its result (possibly `None`) is passed to
the handler's `get_columns` capability unchanged. -/
def DBHandlerWrapper.get_columns (B : Backend) (W : Wrapper B) (req : Request) :
    Outcome × List (Event B.Q) :=
  match requestJson req.body with
  | Except.error e =>
      (Outcome.resp ((errorQueryResponse (tracebackOf e)).to_json) 500, [])
  | Except.ok _json =>
      match jsonGet _json tableKey with
      | Except.error e =>
          (Outcome.resp ((errorQueryResponse (tracebackOf e)).to_json) 500, [])
      | Except.ok table =>
          match BaseDBWrapper.get_handler B W _json with
          | (Except.error e, ev) =>
              (Outcome.resp ((errorQueryResponse (tracebackOf e)).to_json) 500, ev)
          | (Except.ok h, ev) =>
              match h.get_columns table with
              | Except.ok result =>
                  (Outcome.resp result.to_json 200, ev ++ [Event.callColumns table])
              | Except.error e =>
                  (Outcome.resp ((errorQueryResponse (tracebackOf e)).to_json) 500,
                    ev ++ [Event.callColumns table])

/-- Names of the view functions registered as routes. -/
inductive OpName : Type
  | index
  | connect
  | disconnect
  | check_connection
  | get_tables
  | get_columns
  | native_query
  | query
deriving DecidableEq

/-- HTTP methods used by the route table. -/
inductive Method : Type
  | GET
  | POST
  | PUT
deriving DecidableEq

/-- One registered Flask route: rule, allowed methods, view function. -/
structure Route where
  path : String
  methods : List Method
  op : OpName

/-- The route table exactly as `BaseDBWrapper.__init__` and
`DBHandlerWrapper.__init__` build it, in registration order.  Note that the
`disconnect` view function is registered under the rule `"/connect"`. -/
def appRoutes : List Route :=
  [⟨"/", [Method.GET], OpName.index⟩,
   ⟨"/connect", [Method.GET], OpName.connect⟩,
   ⟨"/connect", [Method.GET], OpName.disconnect⟩,
   ⟨"/check_connection", [Method.GET], OpName.check_connection⟩,
   ⟨"/get_tables", [Method.GET], OpName.get_tables⟩,
   ⟨"/get_columns", [Method.GET], OpName.get_columns⟩,
   ⟨"/native_query", [Method.POST, Method.PUT], OpName.native_query⟩,
   ⟨"/query", [Method.GET], OpName.query⟩]

/-- URL dispatch over the route table: werkzeug orders rules of equal
weight by registration order, so the first matching registration wins. -/
def matchRoute (path : String) (m : Method) : Option Route :=
  appRoutes.find? (fun r => r.path == path && r.methods.contains m)

/-- Dispatch a request to the view function registered under an `OpName`;
the `index` view returns the plain text marker with status 200. -/
def dispatchOp (B : Backend) (W : Wrapper B) : OpName → Request → Outcome × List (Event B.Q)
  | OpName.index, _ =>
      (Outcome.resp (JValue.str (pyOfString "A DB Service Wrapper")) 200, [])
  | OpName.connect, req => DBHandlerWrapper.connect B W req
  | OpName.disconnect, req => DBHandlerWrapper.disconnect B W req
  | OpName.check_connection, req => DBHandlerWrapper.check_connection B W req
  | OpName.get_tables, req => DBHandlerWrapper.get_tables B W req
  | OpName.get_columns, req => DBHandlerWrapper.get_columns B W req
  | OpName.native_query, req => DBHandlerWrapper.native_query B W req
  | OpName.query, req => DBHandlerWrapper.query B W req

/-- Serving a sequence of requests against one operation: the wrapper keeps
no state between requests, so serving is pure iteration. -/
def serveAll (B : Backend) (W : Wrapper B) (op : OpName) :
    List Request → List (Outcome × List (Event B.Q))
  | [] => []
  | req :: rest => dispatchOp B W op req :: serveAll B W op rest

/-- Caller-side encoding of the query transport codec.  Modelled from the
spec: the encoder is external to the embedded file; it serializes the query
object with the backend's serializer, base64-encodes the bytes, and turns
them into a UTF-8 string — every base64 byte is ASCII, so the string's code
points are exactly the base64 bytes. -/
def clientEncode (B : Backend) (q : B.Q) : PyStr :=
  b64encode (B.dumps q)

/-- Every base64 alphabet character is ASCII. -/
theorem b64Char_lt_128 (n : Nat) : b64Char n < 128 := by
  unfold b64Char
  split_ifs <;> omega

/-- No alphabet character is the pad character. -/
theorem b64Char_ne_pad (n : Nat) : b64Char n ≠ 61 := by
  unfold b64Char
  split_ifs <;> omega

/-- The decoder table inverts the encoder table on sextets. -/
theorem b64Val_b64Char (n : Nat) (h : n < 64) : b64Val (b64Char n) = some n := by
  unfold b64Char b64Val
  split_ifs <;> (try (exfalso; omega)) <;> simp only [Option.some.injEq] <;> omega

/-- Alphabet characters survive the discard pass of `b64decodePy`. -/
theorem isB64Sym_b64Char (n : Nat) : isB64Sym (b64Char n) = true := by
  by_cases h : n < 64
  · simp [isB64Sym, b64Val_b64Char n h]
  · have h47 : b64Char n = 47 := by
      unfold b64Char
      split_ifs <;> omega
    rw [h47]
    decide

/-- Every character of a base64 encoding is an alphabet or pad character. -/
theorem mem_b64encode_sym : ∀ (bs : List Nat) (c : Nat), c ∈ b64encode bs → isB64Sym c = true
  | [], _, h => by simp [b64encode] at h
  | [a], c, h => by
      simp only [b64encode, List.mem_cons, List.not_mem_nil, or_false] at h
      rcases h with h | h | h | h <;> subst h <;>
        first
          | exact isB64Sym_b64Char _
          | decide
  | [a, b], c, h => by
      simp only [b64encode, List.mem_cons, List.not_mem_nil, or_false] at h
      rcases h with h | h | h | h <;> subst h <;>
        first
          | exact isB64Sym_b64Char _
          | decide
  | a :: b :: d :: rest, c, h => by
      simp only [b64encode, List.mem_cons] at h
      rcases h with h | h | h | h | h
      · subst h; exact isB64Sym_b64Char _
      · subst h; exact isB64Sym_b64Char _
      · subst h; exact isB64Sym_b64Char _
      · subst h; exact isB64Sym_b64Char _
      · exact mem_b64encode_sym rest c h

/-- Every character of a base64 encoding is ASCII. -/
theorem mem_b64encode_lt : ∀ (bs : List Nat) (c : Nat), c ∈ b64encode bs → c < 128
  | [], _, h => by simp [b64encode] at h
  | [a], c, h => by
      simp only [b64encode, List.mem_cons, List.not_mem_nil, or_false] at h
      rcases h with h | h | h | h <;> subst h <;>
        first
          | exact b64Char_lt_128 _
          | omega
  | [a, b], c, h => by
      simp only [b64encode, List.mem_cons, List.not_mem_nil, or_false] at h
      rcases h with h | h | h | h <;> subst h <;>
        first
          | exact b64Char_lt_128 _
          | omega
  | a :: b :: d :: rest, c, h => by
      simp only [b64encode, List.mem_cons] at h
      rcases h with h | h | h | h | h
      · subst h; exact b64Char_lt_128 _
      · subst h; exact b64Char_lt_128 _
      · subst h; exact b64Char_lt_128 _
      · subst h; exact b64Char_lt_128 _
      · exact mem_b64encode_lt rest c h

/-- The discard pass of `b64decodePy` keeps a base64 encoding intact. -/
theorem filter_b64encode (bs : List Nat) : (b64encode bs).filter isB64Sym = b64encode bs :=
  List.filter_eq_self.mpr (fun c hc => mem_b64encode_sym bs c hc)

/-- UTF-8 encoding is the identity on ASCII strings. -/
theorem utf8Encode_ascii : ∀ (s : PyStr), (∀ c ∈ s, c < 128) → utf8Encode s = s
  | [], _ => rfl
  | c :: rest, h => by
      have hc : c < 128 := h c (by simp)
      have ih := utf8Encode_ascii rest (fun x hx => h x (by simp [hx]))
      simp [utf8Encode, utf8EncodeChar, hc, ih]

/-- The strict block decoder inverts the encoder on byte strings. -/
theorem b64strict_b64encode : ∀ (bs : List Nat), (∀ b ∈ bs, b < 256) →
    b64strict (b64encode bs) = Except.ok bs
  | [], _ => rfl
  | [a], h => by
      have ha : a < 256 := h a (by simp)
      have h1 : a / 4 < 64 := by omega
      have h2 : a % 4 * 16 < 64 := by omega
      simp [b64encode, b64strict, b64Val_b64Char _ h1, b64Val_b64Char _ h2]
      all_goals omega
  | [a, b], h => by
      have ha : a < 256 := h a (by simp)
      have hb : b < 256 := h b (by simp)
      have h1 : a / 4 < 64 := by omega
      have h2 : a % 4 * 16 + b / 16 < 64 := by omega
      have h3 : b % 16 * 4 < 64 := by omega
      simp [b64encode, b64strict, b64Val_b64Char _ h1, b64Val_b64Char _ h2,
        b64Val_b64Char _ h3, b64Char_ne_pad]
      all_goals omega
  | a :: b :: c :: rest, h => by
      have ha : a < 256 := h a (by simp)
      have hb : b < 256 := h b (by simp)
      have hc : c < 256 := h c (by simp)
      have h1 : a / 4 < 64 := by omega
      have h2 : a % 4 * 16 + b / 16 < 64 := by omega
      have h3 : b % 16 * 4 + c / 64 < 64 := by omega
      have h4 : c % 64 < 64 := by omega
      have ih := b64strict_b64encode rest (fun x hx => h x (by simp [hx]))
      simp [b64encode, b64strict, b64Val_b64Char _ h1, b64Val_b64Char _ h2,
        b64Val_b64Char _ h3, b64Val_b64Char _ h4, b64Char_ne_pad, ih]
      all_goals omega

/-- Python's `base64.b64decode` inverts `base64.b64encode` on byte strings. -/
theorem b64decodePy_b64encode (bs : List Nat) (h : ∀ b ∈ bs, b < 256) :
    b64decodePy (b64encode bs) = Except.ok bs := by
  unfold b64decodePy
  rw [filter_b64encode, b64strict_b64encode bs h]

/-- A list occurs at the head of itself followed by anything. -/
theorem leadsWith_append (pat post : List Nat) : leadsWith pat (pat ++ post) = true := by
  induction pat with
  | nil => rfl
  | cons a as ih => simp [leadsWith, ih]

/-- The empty fragment is mentioned by every text. -/
theorem mentions_nil_pat (l : List Nat) : mentions [] l = true := by
  induction l with
  | nil => rfl
  | cons c rest _ => simp [mentions, leadsWith]

/-- A fragment is mentioned by any text that embeds it contiguously. -/
theorem mentions_concat (pre pat post : List Nat) :
    mentions pat (pre ++ (pat ++ post)) = true := by
  induction pre with
  | nil =>
      cases pat with
      | nil => simpa using mentions_nil_pat post
      | cons a as =>
          simp only [List.nil_append, mentions, Bool.or_eq_true]
          exact Or.inl (leadsWith_append (a :: as) post)
  | cons d rest ih => simp [mentions, ih]

/-- Formatted tracebacks are never the empty string. -/
theorem tracebackOf_ne_nil (e : Exn) : tracebackOf e ≠ [] := by
  intro hcontra
  have hl := congrArg List.length hcontra
  rw [tracebackOf, List.length_append] at hl
  have hpos : 0 < (pyOfString "Traceback (most recent call last): ").length := by decide
  simp only [List.length_nil] at hl
  omega

/-- The traceback of an unknown-handler-type failure mentions the type tag. -/
theorem mentions_unknown_type (t : PyStr) :
    mentions t (tracebackOf (Exn.unknownHandlerType (JValue.str t))) = true := by
  unfold tracebackOf exnText jvalText
  simp only [List.append_assoc]
  rw [← List.append_assoc (pyOfString "Traceback (most recent call last): ")]
  exact mentions_concat _ _ _

/-- A construction event in the resolver's trace pins down everything: the
type tag and kwargs were read from the very JSON given to `get_handler`, the
registry resolved the tag, and the class call succeeded. -/
theorem get_handler_resolve (B : Backend) (W : Wrapper B) (_json : JValue)
    (ht : JValue) (kvs : List (PyStr × JValue))
    (hmem : Event.resolve ht kvs ∈ (BaseDBWrapper.get_handler B W _json).2) :
    jsonGetItem _json handlerTypeKey = Except.ok ht ∧
    jsonGetItem _json handlerKwargsKey = Except.ok (JValue.obj kvs) ∧
    ∃ cls h, W.registry ht = some cls ∧ cls.construct kvs = Except.ok h ∧
      BaseDBWrapper.get_handler B W _json = (Except.ok h, [Event.resolve ht kvs]) := by
  rcases hty : jsonGetItem _json handlerTypeKey with e | ht'
  · simp [BaseDBWrapper.get_handler, hty] at hmem
  · rcases hreg : W.registry ht' with _ | cls
    · simp [BaseDBWrapper.get_handler, hty, hreg] at hmem
    · rcases hkw : jsonGetItem _json handlerKwargsKey with e2 | kv
      · simp [BaseDBWrapper.get_handler, hty, hreg, hkw] at hmem
      · rcases kv with _ | b | n | s | xs | kvs'
        · simp [BaseDBWrapper.get_handler, hty, hreg, hkw] at hmem
        · simp [BaseDBWrapper.get_handler, hty, hreg, hkw] at hmem
        · simp [BaseDBWrapper.get_handler, hty, hreg, hkw] at hmem
        · simp [BaseDBWrapper.get_handler, hty, hreg, hkw] at hmem
        · simp [BaseDBWrapper.get_handler, hty, hreg, hkw] at hmem
        · rcases hcon : cls.construct kvs' with e3 | hh
          · simp [BaseDBWrapper.get_handler, hty, hreg, hkw, hcon] at hmem
          · simp [BaseDBWrapper.get_handler, hty, hreg, hkw, hcon] at hmem
            obtain ⟨h1, h2⟩ := hmem
            subst h1
            subst h2
            exact ⟨rfl, rfl, cls, hh, hreg,
              hcon, by simp [BaseDBWrapper.get_handler, hty, hreg, hkw, hcon]⟩

/-- The decode phase of `query` emits only the four possible step traces. -/
theorem queryDecode_trace_cases (B : Backend) (body : BodyData) :
    (queryDecode B body).2 = [Event.readBody, Event.parseJSON] ∨
    (queryDecode B body).2 = [Event.readBody, Event.parseJSON, Event.extractQuery] ∨
    (queryDecode B body).2 =
      [Event.readBody, Event.parseJSON, Event.extractQuery, Event.b64dec] ∨
    (queryDecode B body).2 =
      [Event.readBody, Event.parseJSON, Event.extractQuery, Event.b64dec, Event.deserialize] := by
  unfold queryDecode
  split
  · simp
  · split
    · simp
    · split
      · simp
      · split
        · simp
        · simp
    · simp

/-- The decode phase of `query` never constructs a handler nor invokes a
capability. -/
theorem queryDecode_no_handler_events (B : Backend) (body : BodyData) (x : Event B.Q)
    (hx : x ∈ (queryDecode B body).2) : isHandlerEvent x = false := by
  rcases queryDecode_trace_cases B body with h | h | h | h <;> rw [h] at hx <;>
    fin_cases hx <;> rfl

/-- When the decode phase succeeds, all five steps ran, in order. -/
theorem queryDecode_ok_trace (B : Backend) (body : BodyData) (p : JValue × B.Q)
    (hp : (queryDecode B body).1 = Except.ok p) :
    (queryDecode B body).2 =
      [Event.readBody, Event.parseJSON, Event.extractQuery, Event.b64dec, Event.deserialize] := by
  unfold queryDecode at hp ⊢
  split at hp
  · simp at hp
  · split at hp
    · simp at hp
    · split at hp
      · simp at hp
      · split at hp
        · simp at hp
        · simp_all
    · simp at hp

/-- Decoding the caller-side encoding of a serializable query object inside
the `query` operation succeeds and returns the original object. -/
theorem queryDecode_clientEncode (B : Backend) (q : B.Q) (rest : List (PyStr × JValue))
    (hbytes : ∀ b ∈ B.dumps q, b < 256)
    (hser : B.loads (B.dumps q) = Except.ok q) :
    queryDecode B (BodyData.json (JValue.obj ((queryKey, JValue.str (clientEncode B q)) :: rest))) =
      (Except.ok (JValue.obj ((queryKey, JValue.str (clientEncode B q)) :: rest), q),
       [Event.readBody, Event.parseJSON, Event.extractQuery, Event.b64dec, Event.deserialize]) := by
  have hascii : ∀ c ∈ clientEncode B q, c < 128 := fun c hc => mem_b64encode_lt _ c hc
  have hutf : utf8Encode (clientEncode B q) = clientEncode B q := utf8Encode_ascii _ hascii
  have hdec : b64decodePy (utf8Encode (clientEncode B q)) = Except.ok (B.dumps q) := by
    rw [hutf]
    exact b64decodePy_b64encode _ hbytes
  unfold queryDecode
  simp [parseJson, jsonGetItem, lookupKey, hdec, hser]

/-- Stub Query Response used by the fixtures below. -/
def okResp : HandlerResponse := ⟨RespType.OK, none, none, none⟩

/-- Stub handler whose capabilities all succeed. -/
def testHandler : Handler Nat :=
  { connect := Except.ok ()
    disconnect := Except.ok ()
    check_connection := Except.ok ⟨true, none⟩
    native_query := fun _ => Except.ok okResp
    query := fun _ => Except.ok okResp
    get_tables := Except.ok okResp
    get_columns := fun _ => Except.ok okResp }

/-- Stub handler class that always constructs `testHandler`. -/
def testClass : HandlerClass Nat := ⟨fun _ => Except.ok testHandler⟩

/-- Stub backend whose query objects are single bytes. -/
def testBackend : Backend :=
  { Q := Nat
    dumps := fun n => [n % 256]
    loads := fun l =>
      match l with
      | [b] => Except.ok b
      | _ => Except.error Exn.unpicklingError }

/-- Stub registry knowing only the tag `"stub"`. -/
def testRegistry : JValue → Option (HandlerClass Nat) := fun v =>
  match v with
  | JValue.str s => if s = pyOfString "stub" then some testClass else none
  | _ => none

/-- Wrapper fixture over the stub registry. -/
def testWrapper : Wrapper testBackend := ⟨testRegistry⟩

/-- Request body fixture naming the stub handler with empty kwargs. -/
def stubBody : JValue :=
  JValue.obj
    [(handlerTypeKey, JValue.str (pyOfString "stub")),
     (handlerKwargsKey, JValue.obj [])]

/-- Request fixture with a well-formed body. -/
def stubReq : Request := ⟨BodyData.json stubBody⟩

/-- Request fixture whose body is not valid JSON. -/
def badReq : Request := ⟨BodyData.malformed "not json"⟩

/-- Request body fixture naming an unregistered handler type. -/
def unknownBody : JValue :=
  JValue.obj
    [(handlerTypeKey, JValue.str (pyOfString "nosuch")),
     (handlerKwargsKey, JValue.obj [])]

/-- Request fixture naming an unregistered handler type. -/
def unknownReq : Request := ⟨BodyData.json unknownBody⟩

/-- Flask's `request.json` and `json.loads` agree on every body they accept. -/
theorem parseJson_of_requestJson (body : BodyData) (j : JValue)
    (h : requestJson body = Except.ok j) : parseJson body = Except.ok j := by
  cases body with
  | malformed raw => simp [requestJson] at h
  | json v => simpa [requestJson, parseJson] using h

/-- A successful decode phase parsed the raw body to the JSON it returns. -/
theorem queryDecode_ok_parse (B : Backend) (body : BodyData) (j : JValue) (q : B.Q)
    (hp : (queryDecode B body).1 = Except.ok (j, q)) : parseJson body = Except.ok j := by
  unfold queryDecode at hp
  split at hp
  · simp at hp
  · split at hp
    · simp at hp
    · split at hp
      · simp at hp
      · split at hp
        · simp at hp
        · simp_all
    · simp at hp

/-- The serialized Status Response exposes its `success` flag. -/
theorem statusJson_success (r : StatusResponse) :
    lookupField r.to_json (pyOfString "success") = some (JValue.bool r.success) := by
  simp [StatusResponse.to_json, lookupField, lookupKey]

/-- The serialized Status Response exposes its `error_message`. -/
theorem statusJson_error_message (r : StatusResponse) :
    lookupField r.to_json (pyOfString "error_message") =
      some (match r.error_message with
            | some m => JValue.str m
            | none => JValue.null) := by
  have hne : pyOfString "success" ≠ pyOfString "error_message" := by decide
  simp [StatusResponse.to_json, lookupField, lookupKey, hne]

/-- The serialized Query Response exposes its `type` field. -/
theorem respJson_type (r : HandlerResponse) :
    lookupField r.to_json (pyOfString "type") =
      some (JValue.str (RespType.toText r.resp_type)) := by
  simp [HandlerResponse.to_json, lookupField, lookupKey]

/-- The serialized Query Response exposes its `error_code` field. -/
theorem respJson_error_code (r : HandlerResponse) :
    lookupField r.to_json (pyOfString "error_code") =
      some (match r.error_code with
            | some n => JValue.num n
            | none => JValue.null) := by
  have hne : pyOfString "type" ≠ pyOfString "error_code" := by decide
  simp [HandlerResponse.to_json, lookupField, lookupKey, hne]

/-- The serialized Query Response exposes its `error_message` field. -/
theorem respJson_error_message (r : HandlerResponse) :
    lookupField r.to_json (pyOfString "error_message") =
      some (match r.error_message with
            | some m => JValue.str m
            | none => JValue.null) := by
  have hne1 : pyOfString "type" ≠ pyOfString "error_message" := by decide
  have hne2 : pyOfString "error_code" ≠ pyOfString "error_message" := by decide
  simp [HandlerResponse.to_json, lookupField, lookupKey, hne1, hne2]

/-- Shape of the error envelope all catch blocks of the query-shaped
operations produce: type ERROR, error code 1, the traceback as message. -/
theorem errQueryJson_fields (m : PyStr) :
    lookupField ((errorQueryResponse m).to_json) (pyOfString "type") =
        some (JValue.str (pyOfString "ERROR")) ∧
    lookupField ((errorQueryResponse m).to_json) (pyOfString "error_code") =
        some (JValue.num 1) ∧
    lookupField ((errorQueryResponse m).to_json) (pyOfString "error_message") =
        some (JValue.str m) :=
  ⟨by rw [respJson_type]; rfl, by rw [respJson_error_code]; rfl,
   by rw [respJson_error_message]; rfl⟩

/-- Any handler construction recorded while dispatching a request, under any
operation, read the type tag and kwargs from that very request's parsed
body. -/
theorem resolve_mem_dispatchOp (B : Backend) (W : Wrapper B) (op : OpName) (req : Request)
    (ht : JValue) (kvs : List (PyStr × JValue))
    (hmem : Event.resolve ht kvs ∈ (dispatchOp B W op req).2) :
    ∃ _json, parseJson req.body = Except.ok _json ∧
      jsonGetItem _json handlerTypeKey = Except.ok ht ∧
      jsonGetItem _json handlerKwargsKey = Except.ok (JValue.obj kvs) := by
  cases op with
  | index => simp [dispatchOp] at hmem
  | connect =>
      simp only [dispatchOp] at hmem
      unfold DBHandlerWrapper.connect at hmem
      split at hmem
      · simp at hmem
      · rename_i _json hrj
        split at hmem
        · rename_i e2 ev2 hgh
          exact ⟨_json, parseJson_of_requestJson _ _ hrj,
            (get_handler_resolve B W _json ht kvs (by rw [hgh]; exact hmem)).1,
            (get_handler_resolve B W _json ht kvs (by rw [hgh]; exact hmem)).2.1⟩
        · rename_i h ev2 hgh
          split at hmem <;> simp at hmem <;>
            exact ⟨_json, parseJson_of_requestJson _ _ hrj,
              (get_handler_resolve B W _json ht kvs (by rw [hgh]; exact hmem)).1,
              (get_handler_resolve B W _json ht kvs (by rw [hgh]; exact hmem)).2.1⟩
  | disconnect =>
      simp only [dispatchOp] at hmem
      unfold DBHandlerWrapper.disconnect at hmem
      split at hmem
      · simp at hmem
      · rename_i _json hrj
        split at hmem
        · rename_i e2 ev2 hgh
          exact ⟨_json, parseJson_of_requestJson _ _ hrj,
            (get_handler_resolve B W _json ht kvs (by rw [hgh]; exact hmem)).1,
            (get_handler_resolve B W _json ht kvs (by rw [hgh]; exact hmem)).2.1⟩
        · rename_i h ev2 hgh
          split at hmem <;> simp at hmem <;>
            exact ⟨_json, parseJson_of_requestJson _ _ hrj,
              (get_handler_resolve B W _json ht kvs (by rw [hgh]; exact hmem)).1,
              (get_handler_resolve B W _json ht kvs (by rw [hgh]; exact hmem)).2.1⟩
  | check_connection =>
      simp only [dispatchOp] at hmem
      unfold DBHandlerWrapper.check_connection at hmem
      split at hmem
      · simp at hmem
      · rename_i _json hrj
        split at hmem
        · rename_i e2 ev2 hgh
          exact ⟨_json, parseJson_of_requestJson _ _ hrj,
            (get_handler_resolve B W _json ht kvs (by rw [hgh]; exact hmem)).1,
            (get_handler_resolve B W _json ht kvs (by rw [hgh]; exact hmem)).2.1⟩
        · rename_i h ev2 hgh
          split at hmem <;> simp at hmem <;>
            exact ⟨_json, parseJson_of_requestJson _ _ hrj,
              (get_handler_resolve B W _json ht kvs (by rw [hgh]; exact hmem)).1,
              (get_handler_resolve B W _json ht kvs (by rw [hgh]; exact hmem)).2.1⟩
  | get_tables =>
      simp only [dispatchOp] at hmem
      unfold DBHandlerWrapper.get_tables at hmem
      split at hmem
      · simp at hmem
      · rename_i _json hrj
        split at hmem
        · rename_i e2 ev2 hgh
          exact ⟨_json, parseJson_of_requestJson _ _ hrj,
            (get_handler_resolve B W _json ht kvs (by rw [hgh]; exact hmem)).1,
            (get_handler_resolve B W _json ht kvs (by rw [hgh]; exact hmem)).2.1⟩
        · rename_i h ev2 hgh
          split at hmem <;> simp at hmem <;>
            exact ⟨_json, parseJson_of_requestJson _ _ hrj,
              (get_handler_resolve B W _json ht kvs (by rw [hgh]; exact hmem)).1,
              (get_handler_resolve B W _json ht kvs (by rw [hgh]; exact hmem)).2.1⟩
  | native_query =>
      simp only [dispatchOp] at hmem
      unfold DBHandlerWrapper.native_query at hmem
      split at hmem
      · simp at hmem
      · rename_i _json hrj
        split at hmem
        · simp at hmem
        · rename_i qv hq
          split at hmem
          · rename_i e2 ev2 hgh
            exact ⟨_json, parseJson_of_requestJson _ _ hrj,
              (get_handler_resolve B W _json ht kvs (by rw [hgh]; exact hmem)).1,
              (get_handler_resolve B W _json ht kvs (by rw [hgh]; exact hmem)).2.1⟩
          · rename_i h ev2 hgh
            split at hmem <;> simp at hmem <;>
              exact ⟨_json, parseJson_of_requestJson _ _ hrj,
                (get_handler_resolve B W _json ht kvs (by rw [hgh]; exact hmem)).1,
                (get_handler_resolve B W _json ht kvs (by rw [hgh]; exact hmem)).2.1⟩
  | get_columns =>
      simp only [dispatchOp] at hmem
      unfold DBHandlerWrapper.get_columns at hmem
      split at hmem
      · simp at hmem
      · rename_i _json hrj
        split at hmem
        · simp at hmem
        · rename_i table hq
          split at hmem
          · rename_i e2 ev2 hgh
            exact ⟨_json, parseJson_of_requestJson _ _ hrj,
              (get_handler_resolve B W _json ht kvs (by rw [hgh]; exact hmem)).1,
              (get_handler_resolve B W _json ht kvs (by rw [hgh]; exact hmem)).2.1⟩
          · rename_i h ev2 hgh
            split at hmem <;> simp at hmem <;>
              exact ⟨_json, parseJson_of_requestJson _ _ hrj,
                (get_handler_resolve B W _json ht kvs (by rw [hgh]; exact hmem)).1,
                (get_handler_resolve B W _json ht kvs (by rw [hgh]; exact hmem)).2.1⟩
  | query =>
      simp only [dispatchOp] at hmem
      unfold DBHandlerWrapper.query at hmem
      split at hmem
      · rename_i e dev hdec
        exfalso
        have hno := queryDecode_no_handler_events B req.body (Event.resolve ht kvs)
          (by rw [hdec]; exact hmem)
        simp [isHandlerEvent] at hno
      · rename_i _json q dev hdec
        have hparse : parseJson req.body = Except.ok _json :=
          queryDecode_ok_parse B req.body _json q (by rw [hdec])
        split at hmem
        · rename_i e2 ev2 hgh
          simp at hmem
          rcases hmem with hmem | hmem
          · exfalso
            have hno := queryDecode_no_handler_events B req.body (Event.resolve ht kvs)
              (by rw [hdec]; exact hmem)
            simp [isHandlerEvent] at hno
          · exact ⟨_json, hparse,
              (get_handler_resolve B W _json ht kvs (by rw [hgh]; exact hmem)).1,
              (get_handler_resolve B W _json ht kvs (by rw [hgh]; exact hmem)).2.1⟩
        · rename_i h ev2 hgh
          split at hmem
          · simp at hmem
            rcases hmem with hmem | hmem
            · exfalso
              have hno := queryDecode_no_handler_events B req.body (Event.resolve ht kvs)
                (by rw [hdec]; exact hmem)
              simp [isHandlerEvent] at hno
            · exact ⟨_json, hparse,
                (get_handler_resolve B W _json ht kvs (by rw [hgh]; exact hmem)).1,
                (get_handler_resolve B W _json ht kvs (by rw [hgh]; exact hmem)).2.1⟩
          · simp at hmem
            rcases hmem with hmem | hmem
            · exfalso
              have hno := queryDecode_no_handler_events B req.body (Event.resolve ht kvs)
                (by rw [hdec]; exact hmem)
              simp [isHandlerEvent] at hno
            · exact ⟨_json, hparse,
                (get_handler_resolve B W _json ht kvs (by rw [hgh]; exact hmem)).1,
                (get_handler_resolve B W _json ht kvs (by rw [hgh]; exact hmem)).2.1⟩

/-- Serving requests in sequence is independent per request: the wrapper
threads no state from one request to the next. -/
theorem serveAll_eq_map (B : Backend) (W : Wrapper B) (op : OpName) :
    ∀ reqs : List Request, serveAll B W op reqs = reqs.map (dispatchOp B W op)
  | [] => rfl
  | req :: rest => by simp [serveAll, serveAll_eq_map B W op rest]

/-- C1: the claim demands that every operation catch every internal fault
and convert it to an HTTP 500 envelope, in particular `native_query` on a
request body that is not valid JSON.  The code violates this: `native_query`
reads `request.json.get("query")` before entering its try block, so on the
failing input below the `BadRequest` raised by the body parse escapes the
operation to the transport framework (`Outcome.raised`) instead of becoming
a 500 envelope. -/
theorem C1_native_query_uncaught_fault :
    DBHandlerWrapper.native_query testBackend testWrapper badReq =
      (Outcome.raised Exn.badRequest, []) := by
  rfl

/-- C2: whenever the decode phase of the `query` operation fails at any step
(JSON parse, `query` field extraction, base64 decode, or deserialization),
the operation returns HTTP 500 with an ERROR-typed Query Response carrying a
non-null `error_message`, and no handler is constructed and no capability
invoked. -/
theorem C2_query_decode_failure (B : Backend) (W : Wrapper B) (req : Request)
    (e : Exn) (ev : List (Event B.Q))
    (hdec : queryDecode B req.body = (Except.error e, ev)) :
    DBHandlerWrapper.query B W req =
      (Outcome.resp ((errorQueryResponse (tracebackOf e)).to_json) 500, ev) ∧
    (∀ x ∈ ev, isHandlerEvent x = false) ∧
    lookupField ((errorQueryResponse (tracebackOf e)).to_json) (pyOfString "type") =
      some (JValue.str (pyOfString "ERROR")) ∧
    lookupField ((errorQueryResponse (tracebackOf e)).to_json) (pyOfString "error_message") =
      some (JValue.str (tracebackOf e)) ∧
    tracebackOf e ≠ [] := by
  refine ⟨by simp [DBHandlerWrapper.query, hdec], ?_,
    (errQueryJson_fields (tracebackOf e)).1, (errQueryJson_fields (tracebackOf e)).2.2,
    tracebackOf_ne_nil e⟩
  intro x hx
  exact queryDecode_no_handler_events B req.body x (by rw [hdec]; exact hx)

/-- Witness for C2 at a concrete request whose body is not valid JSON. -/
theorem C2_query_decode_failure_witness :
    DBHandlerWrapper.query testBackend testWrapper badReq =
      (Outcome.resp ((errorQueryResponse (tracebackOf Exn.jsonDecodeError)).to_json) 500,
        [Event.readBody, Event.parseJSON]) ∧
    (∀ x ∈ ([Event.readBody, Event.parseJSON] : List (Event Nat)),
      isHandlerEvent x = false) ∧
    lookupField ((errorQueryResponse (tracebackOf Exn.jsonDecodeError)).to_json)
      (pyOfString "type") = some (JValue.str (pyOfString "ERROR")) ∧
    lookupField ((errorQueryResponse (tracebackOf Exn.jsonDecodeError)).to_json)
      (pyOfString "error_message") =
      some (JValue.str (tracebackOf Exn.jsonDecodeError)) ∧
    tracebackOf Exn.jsonDecodeError ≠ [] :=
  C2_query_decode_failure testBackend testWrapper badReq Exn.jsonDecodeError
    [Event.readBody, Event.parseJSON] rfl

/-- C3: round-trip law of the query transport codec.  For every query object
the backend's serializer accepts, encoding it on the caller side (serialize,
base64-encode, embed as the UTF-8 `query` string) and decoding it inside the
`query` operation (parse JSON, extract `query`, UTF-8-encode, base64-decode,
deserialize) returns an object equal to the original. -/
theorem C3_codec_round_trip (B : Backend) (q : B.Q) (rest : List (PyStr × JValue))
    (hbytes : ∀ b ∈ B.dumps q, b < 256)
    (hser : B.loads (B.dumps q) = Except.ok q) :
    (queryDecode B (BodyData.json
        (JValue.obj ((queryKey, JValue.str (clientEncode B q)) :: rest)))).1 =
      Except.ok (JValue.obj ((queryKey, JValue.str (clientEncode B q)) :: rest), q) := by
  rw [queryDecode_clientEncode B q rest hbytes hser]

/-- Witness for C3 at the stub backend and the query object `5`. -/
theorem C3_codec_round_trip_witness :
    (queryDecode testBackend (BodyData.json
        (JValue.obj [(queryKey, JValue.str (clientEncode testBackend (5 : Nat)))]))).1 =
      Except.ok (JValue.obj [(queryKey, JValue.str (clientEncode testBackend (5 : Nat)))],
        (5 : Nat)) :=
  C3_codec_round_trip testBackend (5 : Nat) [] (by decide) rfl

/-- C4: whenever the Connection Descriptor resolves to a handler, the
`check_connection` operation answers with `success=true` iff the handler's
`check_connection()` reports success, the HTTP status is always 200 or 500,
and on any exception the body is a Status Response with `success=false` and
a non-null `error_message`. -/
theorem C4_check_connection_status (B : Backend) (W : Wrapper B) (req : Request)
    (_json : JValue) (h : Handler B.Q) (ev : List (Event B.Q))
    (hjson : requestJson req.body = Except.ok _json)
    (hgh : BaseDBWrapper.get_handler B W _json = (Except.ok h, ev)) :
    (∃ body st, (DBHandlerWrapper.check_connection B W req).1 = Outcome.resp body st ∧
      (st = 200 ∨ st = 500) ∧
      (lookupField body (pyOfString "success") = some (JValue.bool true) ↔
        ∃ r, h.check_connection = Except.ok r ∧ r.success = true)) ∧
    (∀ e, h.check_connection = Except.error e →
      (DBHandlerWrapper.check_connection B W req).1 =
        Outcome.resp (StatusResponse.to_json ⟨false, some (tracebackOf e)⟩) 500 ∧
      lookupField (StatusResponse.to_json ⟨false, some (tracebackOf e)⟩)
          (pyOfString "error_message") = some (JValue.str (tracebackOf e)) ∧
      tracebackOf e ≠ []) := by
  rcases hcc : h.check_connection with e | r
  · constructor
    · refine ⟨StatusResponse.to_json ⟨false, some (tracebackOf e)⟩, 500, ?_, Or.inr rfl, ?_⟩
      · simp [DBHandlerWrapper.check_connection, hjson, hgh, hcc]
      · rw [statusJson_success]
        constructor
        · intro habs
          simp at habs
        · rintro ⟨r2, hr2, hs⟩
          exact absurd hr2 (by simp)
    · intro e2 he2
      injection he2 with he2
      subst he2
      exact ⟨by simp [DBHandlerWrapper.check_connection, hjson, hgh, hcc],
        by rw [statusJson_error_message], tracebackOf_ne_nil _⟩
  · constructor
    · refine ⟨r.to_json, 200, ?_, Or.inl rfl, ?_⟩
      · simp [DBHandlerWrapper.check_connection, hjson, hgh, hcc]
      · rw [statusJson_success]
        constructor
        · intro hb
          simp at hb
          exact ⟨r, rfl, hb⟩
        · rintro ⟨r2, hr2, hs⟩
          injection hr2 with hr2
          subst hr2
          simp [hs]
    · intro e2 he2
      exact absurd he2 (by simp)

/-- Witness for C4 at the stub wrapper and a well-formed request. -/
theorem C4_check_connection_status_witness :
    ∃ body st,
      (DBHandlerWrapper.check_connection testBackend testWrapper stubReq).1 =
        Outcome.resp body st ∧
      (st = 200 ∨ st = 500) ∧
      (lookupField body (pyOfString "success") = some (JValue.bool true) ↔
        ∃ r, testHandler.check_connection = Except.ok r ∧ r.success = true) :=
  (C4_check_connection_status testBackend testWrapper stubReq stubBody testHandler
    [Event.resolve (JValue.str (pyOfString "stub")) []] rfl rfl).1

/-- C5: every handler instance is constructed fresh during the request being
served: `get_handler` resolves the request's `handler_type` through the
registry and calls the resolved class with the request's `handler_kwargs`
expanded verbatim; any construction recorded under any operation used that
request's own fields; and serving a request sequence dispatches each request
independently — the wrapper threads no handler across requests. -/
theorem C5_fresh_handler_per_request (B : Backend) (W : Wrapper B) :
    (∀ _json h ev, BaseDBWrapper.get_handler B W _json = (Except.ok h, ev) →
      ∃ ht kvs cls, jsonGetItem _json handlerTypeKey = Except.ok ht ∧
        W.registry ht = some cls ∧
        jsonGetItem _json handlerKwargsKey = Except.ok (JValue.obj kvs) ∧
        cls.construct kvs = Except.ok h ∧ ev = [Event.resolve ht kvs]) ∧
    (∀ op req ht kvs, Event.resolve ht kvs ∈ (dispatchOp B W op req).2 →
      ∃ _json, parseJson req.body = Except.ok _json ∧
        jsonGetItem _json handlerTypeKey = Except.ok ht ∧
        jsonGetItem _json handlerKwargsKey = Except.ok (JValue.obj kvs)) ∧
    (∀ op reqs, serveAll B W op reqs = reqs.map (dispatchOp B W op)) := by
  refine ⟨?_, fun op req ht kvs hmem => resolve_mem_dispatchOp B W op req ht kvs hmem,
    fun op reqs => serveAll_eq_map B W op reqs⟩
  intro _json h ev hgh
  rcases hty : jsonGetItem _json handlerTypeKey with e | ht'
  · simp [BaseDBWrapper.get_handler, hty] at hgh
  · rcases hreg : W.registry ht' with _ | cls
    · simp [BaseDBWrapper.get_handler, hty, hreg] at hgh
    · rcases hkw : jsonGetItem _json handlerKwargsKey with e2 | kv
      · simp [BaseDBWrapper.get_handler, hty, hreg, hkw] at hgh
      · rcases kv with _ | b | n | s | xs | kvs'
        · simp [BaseDBWrapper.get_handler, hty, hreg, hkw] at hgh
        · simp [BaseDBWrapper.get_handler, hty, hreg, hkw] at hgh
        · simp [BaseDBWrapper.get_handler, hty, hreg, hkw] at hgh
        · simp [BaseDBWrapper.get_handler, hty, hreg, hkw] at hgh
        · simp [BaseDBWrapper.get_handler, hty, hreg, hkw] at hgh
        · rcases hcon : cls.construct kvs' with e3 | hh
          · simp [BaseDBWrapper.get_handler, hty, hreg, hkw, hcon] at hgh
          · simp [BaseDBWrapper.get_handler, hty, hreg, hkw, hcon] at hgh
            obtain ⟨h1, h2⟩ := hgh
            subst h1
            subst h2
            exact ⟨ht', kvs', cls, rfl, hreg, rfl, hcon, rfl⟩

/-- Witness for C5: the resolution clause at the stub wrapper and a concrete
request body. -/
theorem C5_fresh_handler_per_request_witness :
    ∃ ht kvs cls, jsonGetItem stubBody handlerTypeKey = Except.ok ht ∧
      testWrapper.registry ht = some cls ∧
      jsonGetItem stubBody handlerKwargsKey = Except.ok (JValue.obj kvs) ∧
      cls.construct kvs = Except.ok testHandler ∧
      ([Event.resolve (JValue.str (pyOfString "stub")) []] : List (Event Nat)) =
        [Event.resolve ht kvs] :=
  (C5_fresh_handler_per_request testBackend testWrapper).1 stubBody testHandler
    [Event.resolve (JValue.str (pyOfString "stub")) []] rfl

/-- C6: the `connect` and `disconnect` view functions are both registered on
the route path "/connect" with method GET, URL dispatch sends a GET
"/connect" to the registration that takes precedence (the first, `connect`),
and no route path "/disconnect" exists. -/
theorem C6_duplicate_connect_route :
    matchRoute "/connect" Method.GET =
      some ⟨"/connect", [Method.GET], OpName.connect⟩ ∧
    (appRoutes.filter (fun r => r.path == "/connect")).map Route.op =
      [OpName.connect, OpName.disconnect] ∧
    ∀ r ∈ appRoutes, r.path ≠ "/disconnect" := by
  refine ⟨rfl, rfl, ?_⟩
  intro r hr
  fin_cases hr <;> decide

/-- Request body fixture for the `query` operation: the codec-encoded query
object `5` together with the stub Connection Descriptor. -/
def queryBody : JValue :=
  JValue.obj
    [(queryKey, JValue.str (clientEncode testBackend (5 : Nat))),
     (handlerTypeKey, JValue.str (pyOfString "stub")),
     (handlerKwargsKey, JValue.obj [])]

/-- Request fixture wrapping `queryBody`. -/
def queryReq : Request := ⟨BodyData.json queryBody⟩

/-- C7: the `query` operation performs its steps in exactly this order:
read the raw body, parse it as JSON, extract the `query` field,
base64-decode it, deserialize the bytes, and only then resolve the handler
from the same parsed JSON and invoke its `query` capability with the decoded
object; on the success path it answers with the handler's result and 200. -/
theorem C7_query_step_order (B : Backend) (W : Wrapper B) (req : Request)
    (_json : JValue) (q : B.Q) (dev : List (Event B.Q)) (ht : JValue)
    (kvs : List (PyStr × JValue)) (h : Handler B.Q) (result : HandlerResponse)
    (hdec : queryDecode B req.body = (Except.ok (_json, q), dev))
    (hgh : BaseDBWrapper.get_handler B W _json = (Except.ok h, [Event.resolve ht kvs]))
    (hres : h.query q = Except.ok result) :
    dev = [Event.readBody, Event.parseJSON, Event.extractQuery, Event.b64dec,
      Event.deserialize] ∧
    DBHandlerWrapper.query B W req =
      (Outcome.resp result.to_json 200,
       [Event.readBody, Event.parseJSON, Event.extractQuery, Event.b64dec, Event.deserialize,
        Event.resolve ht kvs, Event.callQuery q]) := by
  have hdev : dev = [Event.readBody, Event.parseJSON, Event.extractQuery, Event.b64dec,
      Event.deserialize] := by
    have htr := queryDecode_ok_trace B req.body (_json, q) (by rw [hdec])
    rw [hdec] at htr
    exact htr
  subst hdev
  refine ⟨rfl, ?_⟩
  simp [DBHandlerWrapper.query, hdec, hgh, hres]

/-- Witness for C7: the stub wrapper serving the concrete encoded query. -/
theorem C7_query_step_order_witness :
    DBHandlerWrapper.query testBackend testWrapper queryReq =
      (Outcome.resp okResp.to_json 200,
       [Event.readBody, Event.parseJSON, Event.extractQuery, Event.b64dec, Event.deserialize,
        Event.resolve (JValue.str (pyOfString "stub")) [], Event.callQuery (5 : Nat)]) :=
  (C7_query_step_order testBackend testWrapper queryReq queryBody (5 : Nat)
    [Event.readBody, Event.parseJSON, Event.extractQuery, Event.b64dec, Event.deserialize]
    (JValue.str (pyOfString "stub")) [] testHandler okResp rfl rfl rfl).2

/-- A successful subscript access implies the value was a JSON object. -/
theorem jsonGetItem_ok_obj (v : JValue) (k : PyStr) (x : JValue)
    (h : jsonGetItem v k = Except.ok x) : ∃ kvs, v = JValue.obj kvs := by
  cases v with
  | obj kvs => exact ⟨kvs, rfl⟩
  | null => simp [jsonGetItem] at h
  | bool b => simp [jsonGetItem] at h
  | num n => simp [jsonGetItem] at h
  | str s => simp [jsonGetItem] at h
  | arr xs => simp [jsonGetItem] at h

/-- C8: for every endpoint that requires handler resolution, a request whose
`handler_type` is not registered in the registry yields HTTP 500 with a body
whose diagnostic text mentions the unresolved type, and no handler
capability is invoked (the returned traces carry no handler events). -/
theorem C8_unknown_handler_type (B : Backend) (W : Wrapper B) (_json : JValue) (t : PyStr)
    (hfind : jsonGetItem _json handlerTypeKey = Except.ok (JValue.str t))
    (hreg : W.registry (JValue.str t) = none) :
    (∀ req : Request, req.body = BodyData.json _json →
      DBHandlerWrapper.connect B W req =
        (Outcome.resp (failJson (tracebackOf (Exn.unknownHandlerType (JValue.str t)))) 500,
          []) ∧
      DBHandlerWrapper.disconnect B W req =
        (Outcome.resp (failJson (tracebackOf (Exn.unknownHandlerType (JValue.str t)))) 500,
          []) ∧
      DBHandlerWrapper.check_connection B W req =
        (Outcome.resp (StatusResponse.to_json
            ⟨false, some (tracebackOf (Exn.unknownHandlerType (JValue.str t)))⟩) 500, []) ∧
      DBHandlerWrapper.get_tables B W req =
        (Outcome.resp ((errorQueryResponse
            (tracebackOf (Exn.unknownHandlerType (JValue.str t)))).to_json) 500, []) ∧
      DBHandlerWrapper.get_columns B W req =
        (Outcome.resp ((errorQueryResponse
            (tracebackOf (Exn.unknownHandlerType (JValue.str t)))).to_json) 500, []) ∧
      DBHandlerWrapper.native_query B W req =
        (Outcome.resp ((errorQueryResponse
            (tracebackOf (Exn.unknownHandlerType (JValue.str t)))).to_json) 500, [])) ∧
    (∀ (req : Request) (q : B.Q) (dev : List (Event B.Q)),
      queryDecode B req.body = (Except.ok (_json, q), dev) →
      DBHandlerWrapper.query B W req =
        (Outcome.resp ((errorQueryResponse
            (tracebackOf (Exn.unknownHandlerType (JValue.str t)))).to_json) 500, dev) ∧
      ∀ x ∈ dev, isHandlerEvent x = false) ∧
    mentions t (tracebackOf (Exn.unknownHandlerType (JValue.str t))) = true := by
  obtain ⟨kvs0, rfl⟩ := jsonGetItem_ok_obj _json handlerTypeKey (JValue.str t) hfind
  have hgh : BaseDBWrapper.get_handler B W (JValue.obj kvs0) =
      (Except.error (Exn.unknownHandlerType (JValue.str t)), []) := by
    simp [BaseDBWrapper.get_handler, hfind, hreg]
  refine ⟨?_, ?_, mentions_unknown_type t⟩
  · intro req hbody
    have hrj : requestJson req.body = Except.ok (JValue.obj kvs0) := by
      rw [hbody]
      rfl
    refine ⟨?_, ?_, ?_, ?_, ?_, ?_⟩
    · simp [DBHandlerWrapper.connect, hrj, hgh]
    · simp [DBHandlerWrapper.disconnect, hrj, hgh]
    · simp [DBHandlerWrapper.check_connection, hrj, hgh]
    · simp [DBHandlerWrapper.get_tables, hrj, hgh]
    · simp [DBHandlerWrapper.get_columns, hrj, jsonGet, hgh]
    · simp [DBHandlerWrapper.native_query, hrj, jsonGet, hgh]
  · intro req q dev hdec
    refine ⟨by simp [DBHandlerWrapper.query, hdec, hgh], ?_⟩
    intro x hx
    exact queryDecode_no_handler_events B req.body x (by rw [hdec]; exact hx)

/-- Witness for C8: the stub wrapper rejecting the unregistered tag
`"nosuch"` on the `get_tables` endpoint, with the diagnostic mentioning it. -/
theorem C8_unknown_handler_type_witness :
    DBHandlerWrapper.get_tables testBackend testWrapper unknownReq =
      (Outcome.resp ((errorQueryResponse (tracebackOf
          (Exn.unknownHandlerType (JValue.str (pyOfString "nosuch"))))).to_json) 500, []) ∧
    mentions (pyOfString "nosuch") (tracebackOf
      (Exn.unknownHandlerType (JValue.str (pyOfString "nosuch")))) = true :=
  ⟨((C8_unknown_handler_type testBackend testWrapper unknownBody (pyOfString "nosuch")
      rfl rfl).1 unknownReq rfl).2.2.2.1,
   (C8_unknown_handler_type testBackend testWrapper unknownBody (pyOfString "nosuch")
      rfl rfl).2.2⟩

/-- C9: a `get_columns` request whose JSON body carries no `table` field
takes the defined-default branch: the null value (the absent-key default) is
passed as the table-name argument to the resolved handler's `get_columns`
capability, and the operation raises no missing-field error of its own. -/
theorem C9_get_columns_absent_table (B : Backend) (W : Wrapper B) (req : Request)
    (_json : JValue) (h : Handler B.Q) (ev : List (Event B.Q))
    (hbody : req.body = BodyData.json _json)
    (htable : jsonGet _json tableKey = Except.ok none)
    (hgh : BaseDBWrapper.get_handler B W _json = (Except.ok h, ev)) :
    (∀ r, h.get_columns none = Except.ok r →
      DBHandlerWrapper.get_columns B W req =
        (Outcome.resp r.to_json 200, ev ++ [Event.callColumns none])) ∧
    (∀ e, h.get_columns none = Except.error e →
      DBHandlerWrapper.get_columns B W req =
        (Outcome.resp ((errorQueryResponse (tracebackOf e)).to_json) 500,
          ev ++ [Event.callColumns none])) := by
  have hrj : requestJson req.body = Except.ok _json := by
    rw [hbody]
    rfl
  constructor
  · intro r hr
    simp [DBHandlerWrapper.get_columns, hrj, htable, hgh, hr]
  · intro e he
    simp [DBHandlerWrapper.get_columns, hrj, htable, hgh, he]

/-- Witness for C9: the stub wrapper serving a body without a `table` key. -/
theorem C9_get_columns_absent_table_witness :
    DBHandlerWrapper.get_columns testBackend testWrapper stubReq =
      (Outcome.resp okResp.to_json 200,
        [Event.resolve (JValue.str (pyOfString "stub")) [], Event.callColumns none]) :=
  (C9_get_columns_absent_table testBackend testWrapper stubReq stubBody testHandler
    [Event.resolve (JValue.str (pyOfString "stub")) []] rfl rfl rfl).1 okResp rfl

/-- C10: every failure caught by a query-shaped operation (`native_query`,
`query`, `get_tables`, `get_columns`) is answered with a Query Response of
type ERROR whose `error_code` is exactly 1 and whose `error_message` is the
full formatted traceback — non-null and non-empty; no other error code ever
appears. -/
theorem C10_error_envelope_shape (B : Backend) (W : Wrapper B) (req : Request)
    (body : JValue)
    (hor : (DBHandlerWrapper.native_query B W req).1 = Outcome.resp body 500 ∨
           (DBHandlerWrapper.query B W req).1 = Outcome.resp body 500 ∨
           (DBHandlerWrapper.get_tables B W req).1 = Outcome.resp body 500 ∨
           (DBHandlerWrapper.get_columns B W req).1 = Outcome.resp body 500) :
    ∃ e, body = (errorQueryResponse (tracebackOf e)).to_json ∧
      lookupField body (pyOfString "type") = some (JValue.str (pyOfString "ERROR")) ∧
      lookupField body (pyOfString "error_code") = some (JValue.num 1) ∧
      lookupField body (pyOfString "error_message") = some (JValue.str (tracebackOf e)) ∧
      tracebackOf e ≠ [] := by
  have hfin : ∀ e : Exn, body = (errorQueryResponse (tracebackOf e)).to_json →
      ∃ e, body = (errorQueryResponse (tracebackOf e)).to_json ∧
        lookupField body (pyOfString "type") = some (JValue.str (pyOfString "ERROR")) ∧
        lookupField body (pyOfString "error_code") = some (JValue.num 1) ∧
        lookupField body (pyOfString "error_message") = some (JValue.str (tracebackOf e)) ∧
        tracebackOf e ≠ [] := by
    intro e hb
    subst hb
    exact ⟨e, rfl, (errQueryJson_fields _).1, (errQueryJson_fields _).2.1,
      (errQueryJson_fields _).2.2, tracebackOf_ne_nil e⟩
  rcases hor with hop | hop | hop | hop
  · unfold DBHandlerWrapper.native_query at hop
    split at hop
    · simp at hop
    · split at hop
      · simp at hop
      · split at hop
        · simp at hop
          exact hfin _ hop.symm
        · split at hop
          · simp at hop
          · simp at hop
            exact hfin _ hop.symm
  · unfold DBHandlerWrapper.query at hop
    split at hop
    · simp at hop
      exact hfin _ hop.symm
    · split at hop
      · simp at hop
        exact hfin _ hop.symm
      · split at hop
        · simp at hop
        · simp at hop
          exact hfin _ hop.symm
  · unfold DBHandlerWrapper.get_tables at hop
    split at hop
    · simp at hop
      exact hfin _ hop.symm
    · split at hop
      · simp at hop
        exact hfin _ hop.symm
      · split at hop
        · simp at hop
        · simp at hop
          exact hfin _ hop.symm
  · unfold DBHandlerWrapper.get_columns at hop
    split at hop
    · simp at hop
      exact hfin _ hop.symm
    · split at hop
      · simp at hop
        exact hfin _ hop.symm
      · split at hop
        · simp at hop
          exact hfin _ hop.symm
        · split at hop
          · simp at hop
          · simp at hop
            exact hfin _ hop.symm

/-- Witness for C10 at a concrete caught failure of the `query` operation. -/
theorem C10_error_envelope_shape_witness :
    ∃ e, (errorQueryResponse (tracebackOf Exn.jsonDecodeError)).to_json =
        (errorQueryResponse (tracebackOf e)).to_json ∧
      lookupField ((errorQueryResponse (tracebackOf Exn.jsonDecodeError)).to_json)
        (pyOfString "type") = some (JValue.str (pyOfString "ERROR")) ∧
      lookupField ((errorQueryResponse (tracebackOf Exn.jsonDecodeError)).to_json)
        (pyOfString "error_code") = some (JValue.num 1) ∧
      lookupField ((errorQueryResponse (tracebackOf Exn.jsonDecodeError)).to_json)
        (pyOfString "error_message") = some (JValue.str (tracebackOf e)) ∧
      tracebackOf e ≠ [] :=
  C10_error_envelope_shape testBackend testWrapper badReq
    ((errorQueryResponse (tracebackOf Exn.jsonDecodeError)).to_json)
    (Or.inr (Or.inl rfl))
